import Mathlib

/-!
Shallow embedding of `src/zoom.py`: the session orchestrator
`start_recording_A`, the window monitor (`wait_for_meeting_window`,
`wait_for_meeting_window_close`), the file finalization watcher
`wait_for_file_ready`, the OBS control client (`_obs_request`, here
`obs_request`) and the audio task queue (`queue_audio_task`).

Conventions of the embedding:
- Python strings are `List Char` (`Str`); the path separator is modelled as
  the single character `/`.
- Real time is modelled in units of the loop polling period: one list
  element or one stream index per poll.
- Unbounded loops take explicit fuel; exhausted fuel models a loop that is
  still blocked.
- External effects (window snapshots, OBS request outcomes, file-size
  observations) are supplied as oracles describing what the environment
  did on each call.
-/

abbrev Str := List Char

/-- Python substring test `needle in hay` on strings. -/
def isSubstr (needle : Str) : Str → Bool
  | [] => needle.isEmpty
  | c :: rest => needle.isPrefixOf (c :: rest) || isSubstr needle rest

/-- Truthiness of an optional Python string: `None` and the empty string are
falsy, every other string truthy. -/
def truthyOpt : Option Str → Bool
  | none => false
  | some s => !s.isEmpty

/-- Python `str.lower`, restricted to per-character lowercasing. -/
def lowerStr (s : Str) : Str := s.map Char.toLower

/-- Title predicate inlined in `wait_for_meeting_window` (zoom.py line 63):
`(meet_id and meet_id in title) or 'zoom meeting' in lt or lt.endswith('zoom')`. -/
def openTitleMatch (meet_id : Option Str) (title : Str) : Bool :=
  let lt := lowerStr title
  (truthyOpt meet_id && isSubstr (meet_id.getD []) title)
    || isSubstr ("zoom meeting".toList) lt
    || ("zoom".toList).isSuffixOf lt

/-- Title predicate inlined in `wait_for_meeting_window_close` (zoom.py
line 73): `(meet_id and meet_id in title) or 'zoom meeting' in lt or
lt.endswith('zoom')`. -/
def closeTitleMatch (meet_id : Option Str) (title : Str) : Bool :=
  let lt := lowerStr title
  (truthyOpt meet_id && isSubstr (meet_id.getD []) title)
    || isSubstr ("zoom meeting".toList) lt
    || ("zoom".toList).isSuffixOf lt

/-- `wait_for_meeting_window` (zoom.py lines 57-66): polls the window titles
once per second for at most `timeout_sec` polls; `snaps t` is the snapshot
returned by `list_window_titles` at poll `t`.  The last argument is the
remaining poll budget (`timeout_sec` at the initial call). -/
def wait_for_meeting_window (meet_id : Option Str) (snaps : Nat → List Str) :
    Nat → Nat → Bool
  | _, 0 => false
  | t, fuel + 1 =>
    if (snaps t).any (openTitleMatch meet_id) then true
    else wait_for_meeting_window meet_id snaps (t + 1) fuel

/-- `wait_for_meeting_window_close` (zoom.py lines 68-78): unbounded polling
every 2 seconds; `some t` means the loop returned at poll `t` (no title
matched there), `none` that it was still waiting when the observation fuel
ran out. -/
def wait_for_meeting_window_close (meet_id : Option Str) (snaps : Nat → List Str) :
    Nat → Nat → Option Nat
  | _, 0 => none
  | t, fuel + 1 =>
    if (snaps t).any (closeTitleMatch meet_id) then
      wait_for_meeting_window_close meet_id snaps (t + 1) fuel
    else some t

/-- One poll of `wait_for_file_ready`: the file is absent, or it exists and
`os.path.getsize` raised, or it exists with the given size. -/
inductive Obs
  | absent
  | readErr
  | size (n : Nat)
deriving DecidableEq

/-- How a run of `wait_for_file_ready` ended: returned at poll `t` because
two consecutive size samples agreed, returned at poll `t` on timeout, or the
observation trace ran out while the loop was still polling. -/
inductive WaitResult
  | stable (t : Nat)
  | timeout (t : Nat)
  | exhausted
deriving DecidableEq

/-- `wait_for_file_ready` (zoom.py lines 117-133).  `last` is `last_size`
(initially `-1`), `t` the number of completed 1-second sleeps (so the
elapsed time at the head poll), and the list the remaining observations.
A failed size read sets `size = last_size` (zoom.py line 126), so the
equality test that follows it always succeeds. -/
def wait_for_file_ready (timeout_sec : Nat) : Int → Nat → List Obs → WaitResult
  | _, _, [] => WaitResult.exhausted
  | last, t, Obs.absent :: rest =>
    if timeout_sec < t then WaitResult.timeout t
    else wait_for_file_ready timeout_sec last (t + 1) rest
  | last, t, Obs.readErr :: rest =>
    if last = last then WaitResult.stable t
    else if timeout_sec < t then WaitResult.timeout t
    else wait_for_file_ready timeout_sec last (t + 1) rest
  | last, t, Obs.size n :: rest =>
    if (n : Int) = last then WaitResult.stable t
    else if timeout_sec < t then WaitResult.timeout t
    else wait_for_file_ready timeout_sec (n : Int) (t + 1) rest

/-- Index just past the last `/` of `p` (0 when `p` has no `/`); this is the
`p.rfind(sep) + 1` of CPython's `posixpath`. -/
def lastSepEnd (p : Str) : Nat :=
  p.length - p.reverse.findIdx (fun c => c == '/')

/-- `os.path.dirname` with `/` as separator, following CPython: take the
prefix up to the last separator, then strip trailing separators unless the
prefix consists only of separators. -/
def dirname (p : Str) : Str :=
  let head := p.take (lastSepEnd p)
  if !head.isEmpty && head.any (fun c => c != '/') then
    (head.reverse.dropWhile (fun c => c == '/')).reverse
  else head

/-- `os.path.basename` with `/` as separator: the suffix after the last
separator. -/
def basename (p : Str) : Str := p.drop (lastSepEnd p)

/-- Index of the last character of `p` satisfying `f`, if any. -/
def rfindIdx (f : Char → Bool) (p : Str) : Option Nat :=
  match p.reverse.findIdx? f with
  | none => none
  | some k => some (p.length - 1 - k)

/-- `os.path.splitext` with `/` as separator, following CPython: split at the
last dot when it lies after the last separator and the name does not consist
solely of leading dots up to that point. -/
def splitext (p : Str) : Str × Str :=
  match rfindIdx (fun c => c == '.') p with
  | none => (p, [])
  | some d =>
    let nameStart : Nat :=
      match rfindIdx (fun c => c == '/') p with
      | none => 0
      | some i => i + 1
    if nameStart ≤ d then
      if ((p.drop nameStart).take (d - nameStart)).any (fun c => c != '.') then
        (p.take d, p.drop d)
      else (p, [])
    else (p, [])

/-- One step of `os.path.join` with `/` as separator, following CPython
`posixpath.join`: an absolute component restarts the path. -/
def joinStep (a b : Str) : Str :=
  if b.head? = some '/' then b
  else if a.isEmpty || a.getLast? = some '/' then a ++ b
  else a ++ '/' :: b

/-- `os.path.join` over a nonempty component list, folding `joinStep`. -/
def joinPath : List Str → Str
  | [] => []
  | p :: rest => rest.foldl joinStep p

/-- A parsed incoming OBS-WebSocket message, keeping the fields `_obs_request`
inspects: `obj.get('op')` and `obj.get('d', {}).get('requestId')`.  A frame
that `json.loads` failed to parse is represented as `none` in the incoming
stream. -/
structure Frame where
  op : Option Nat
  requestId : Option Str
deriving DecidableEq

/-- Loop 3 of `_obs_request` (zoom.py lines 149-156): discard incoming
messages, unparsable ones included, until one with `op = 2` arrives; return
the rest of the stream, or `none` if the stream ends first. -/
def await_identified : List (Option Frame) → Option (List (Option Frame))
  | [] => none
  | none :: rest => await_identified rest
  | some f :: rest =>
    if f.op = some 2 then some rest else await_identified rest

/-- Loop 5 of `_obs_request` (zoom.py lines 163-172): discard incoming
messages until one with `op = 7` whose `requestId` equals the one sent
arrives, and return that frame; `none` if the stream ends first. -/
def await_response (request_id : Str) : List (Option Frame) → Option Frame
  | [] => none
  | none :: rest => await_response request_id rest
  | some f :: rest =>
    if f.op = some 7 ∧ f.requestId = some request_id then some f
    else await_response request_id rest

/-- `_obs_request` (zoom.py lines 137-172) viewed over the stream of incoming
messages of one connection: consume the Hello frame unconditionally, run the
Identify-acknowledgement loop, then the response loop.  `none` models a call
still blocked (or a closed connection) before a matching response arrived. -/
def obs_request (request_id : Str) (frames : List (Option Frame)) : Option Frame :=
  match frames with
  | [] => none
  | _hello :: rest =>
    match await_identified rest with
    | none => none
    | some afterIdentify => await_response request_id afterIdentify

/-- A Python dict with string keys and string values, as used for the
session `metadata`; dict truthiness is list non-emptiness. -/
abbrev Metadata := List (Str × Str)

/-- Python `dict.get`. -/
def dictGet (m : Metadata) (k : Str) : Option Str :=
  (m.find? (fun p => p.1 == k)).map (fun p => p.2)

/-- One entry of `audio_schedules.json` as built by `queue_audio_task`
(zoom.py lines 99-108); the `metadata` field is present only when the
supplied metadata was truthy. -/
structure AudioTask where
  id : Str
  url : Str
  fileNameWithoutExt : Str
  extension : Str
  destFolder : Str
  metadata : Option Metadata
deriving DecidableEq

/-- `queue_audio_task` (zoom.py lines 80-115).  `tasks` is the parsed current
store content (the code substitutes `[]` when the file is missing or
unparsable), `cwd` is `os.getcwd()` and `taskId` the generated
time-and-uuid id.  Returns the new store content, or `none` when the call
raises before appending: `os.path.join` raises a `TypeError` when the
metadata dict is truthy but lacks `faculty` or `classText` (zoom.py
line 96 is outside every `try`). -/
def queue_audio_task (cwd : Str) (taskId : Str) (tasks : List AudioTask)
    (file_path : Str) (metadata : Option Metadata) : Option (List AudioTask) :=
  let base_ext := splitext (basename file_path)
  let metaTruthy : Bool :=
    match metadata with
    | none => false
    | some m => !m.isEmpty
  let dest? : Option Str :=
    match metadata with
    | some m =>
      if !m.isEmpty then
        match dictGet m ("faculty".toList), dictGet m ("classText".toList) with
        | some fac, some cls =>
          some (joinPath [cwd, "Diploma".toList, "Workspace".toList, fac, cls])
        | _, _ => none
      else some (dirname file_path)
    | none => some (dirname file_path)
  match dest? with
  | none => none
  | some destFolder =>
    let task : AudioTask :=
      { id := taskId
        url := file_path
        fileNameWithoutExt := base_ext.1
        extension := base_ext.2
        destFolder := destFolder
        metadata := if metaTruthy then metadata else none }
    some (tasks ++ [task])

/-- The `for i, p in enumerate(parts)` loop of `start_recording_A` (zoom.py
lines 218-221): the component following the first case-insensitive `j`
component that has a successor. -/
def findAfterJ : List Str → Option Str
  | [] => none
  | [_] => none
  | p :: q :: rest =>
    if lowerStr p = ("j".toList) then some q else findAfterJ (q :: rest)

/-- Meeting-id extraction of `start_recording_A` (zoom.py lines 212-225) from
`parsed.path.split('/')`: the component after `j` when truthy, else the last
path component when the list is nonempty.  The result may be the falsy empty
string. -/
def extract_meet_id (parts : List Str) : Option Str :=
  let m := findAfterJ parts
  if truthyOpt m then m
  else
    match parts.getLast? with
    | some lastPart => some lastPart
    | none => m

/-- The externally visible operations of one `start_recording_A` run, in the
order the code performs them. -/
inductive Op
  | launch
  | awaitWindow
  | startRecord
  | waitWindowClose
  | waitProcessExit
  | stopRecord
  | waitFileReady
  | queueTask
deriving DecidableEq

/-- How one `start_recording_A` run ended.  `launchFailed` is the `return` at
zoom.py line 246, `startFailed` the `return` at line 287, `stillWaiting`
models an end-of-meeting wait that never returned, `stopFailed` the logged
exception of lines 317-318, `completedNoPath` the warning branch of line 316,
and `completedQueued` the full path through `queue_audio_task`. -/
inductive Outcome
  | launchFailed
  | startFailed
  | stillWaiting
  | stopFailed
  | completedNoPath
  | completedQueued
deriving DecidableEq

/-- Oracle for the environment-dependent steps of one `start_recording_A`
run: whether `os.startfile` raised, the window-title snapshots consumed by
`wait_for_meeting_window` (one per 1-second poll), whether the chosen
end-of-meeting wait ever returned, whether the `StartRecord` exchange
raised, and the outcome of the `StopRecord` exchange (`none` when it raised,
otherwise the `outputPath` field of the response, itself optional).  The
`pyautogui` press and clicks of zoom.py lines 250-263 are caught, logged and
never change control flow, so the embedding omits them. -/
structure Env where
  launchOk : Bool
  titleSnaps : Nat → List Str
  endWaitReturns : Bool
  startOk : Bool
  stopResult : Option (Option Str)

/-- `start_recording_A` (zoom.py lines 207-318), as the pair of the trace of
operations it performed and how it ended.  `parts` is
`urlparse(raw_url).path.split('/')`; the `launch_url` conversion of lines
226-239 only affects the string handed to `os.startfile` and is omitted.
The structure mirrors the source: extract the meeting id; launch (returning
on failure); call `wait_for_meeting_window` with a 60-poll budget only when
the meeting id is truthy; send `StartRecord` (returning on failure); wait
for the meeting window to close when the id was truthy and the window had
been found, else poll the client process; send `StopRecord`; and when the
response carries a truthy `outputPath`, wait for the file and queue the
audio task. -/
def start_recording_A (parts : List Str) (env : Env) : List Op × Outcome :=
  let meet_id := extract_meet_id parts
  if !env.launchOk then ([Op.launch], Outcome.launchFailed)
  else
    let mTruthy := truthyOpt meet_id
    let window_found :=
      if mTruthy then wait_for_meeting_window meet_id env.titleSnaps 0 60
      else false
    let pre := Op.launch :: (if mTruthy then [Op.awaitWindow] else [])
    if !env.startOk then (pre ++ [Op.startRecord], Outcome.startFailed)
    else
      let waitOp :=
        if mTruthy && window_found then Op.waitWindowClose else Op.waitProcessExit
      if !env.endWaitReturns then
        (pre ++ [Op.startRecord, waitOp], Outcome.stillWaiting)
      else
        match env.stopResult with
        | none =>
          (pre ++ [Op.startRecord, waitOp, Op.stopRecord], Outcome.stopFailed)
        | some outputPath =>
          if truthyOpt outputPath then
            (pre ++ [Op.startRecord, waitOp, Op.stopRecord,
                     Op.waitFileReady, Op.queueTask],
             Outcome.completedQueued)
          else
            (pre ++ [Op.startRecord, waitOp, Op.stopRecord],
             Outcome.completedNoPath)

/-- The operations forming the ordering chain of the session lifecycle:
the `StartRecord` call, either end-of-meeting wait, the `StopRecord` call
and the queue append. -/
def chainRelevant : Op → Bool
  | Op.startRecord => true
  | Op.waitWindowClose => true
  | Op.waitProcessExit => true
  | Op.stopRecord => true
  | Op.queueTask => true
  | _ => false

/-- The operations `start_recording_A` performs before the `StartRecord`
call: the launch, then the join-detection poll when the meeting id is
truthy. -/
def preOps (parts : List Str) : List Op :=
  Op.launch :: (if truthyOpt (extract_meet_id parts) then [Op.awaitWindow] else [])

/-- The end-of-meeting wait `start_recording_A` selects: closing of the
meeting window when a truthy meeting id exists and `wait_for_meeting_window`
found the window, process-exit polling otherwise. -/
def endWaitOp (parts : List Str) (env : Env) : Op :=
  if truthyOpt (extract_meet_id parts) &&
      (if truthyOpt (extract_meet_id parts) then
        wait_for_meeting_window (extract_meet_id parts) env.titleSnaps 0 60
      else false)
  then Op.waitWindowClose else Op.waitProcessExit



lemma wait_for_file_ready_returns (timeout_sec : Nat) :
    ∀ (trace : List Obs) (last : Int) (t : Nat),
      t ≤ timeout_sec + 1 → timeout_sec + 2 ≤ trace.length + t →
      wait_for_file_ready timeout_sec last t trace ≠ WaitResult.exhausted := by
  intro trace
  induction trace with
  | nil => intro last t ht hlen; exfalso; simp at hlen; omega
  | cons o rest ih =>
    intro last t ht hlen
    cases o with
    | absent =>
      simp only [wait_for_file_ready]
      split
      · simp
      · next h => exact ih last (t + 1) (by omega) (by simp at hlen ⊢; omega)
    | readErr => simp [wait_for_file_ready]
    | size n =>
      simp only [wait_for_file_ready]
      split
      · simp
      · split
        · simp
        · next h h2 => exact ih (n : Int) (t + 1) (by omega) (by simp at hlen ⊢; omega)

/-- Claim C8: `wait_for_file_ready` returns as soon as two consecutive size
samples agree (first conjunct: two equal samples starting within the budget
end the wait at the first or second of them); an absent file never ends the
wait, only the timeout check applies (second conjunct); and with enough
observations the wait always returns — no later than one poll past the
timeout, and without any error result (third conjunct, with `t = 0` at the
initial call: a trace of `timeout_sec + 2` polls is always enough). -/
theorem file_ready_stabilizes_or_times_out :
    ∀ (timeout_sec : Nat) (last : Int) (t : Nat) (n : Nat) (rest trace : List Obs),
      (t ≤ timeout_sec →
        wait_for_file_ready timeout_sec last t (Obs.size n :: Obs.size n :: rest) =
          WaitResult.stable t ∨
        wait_for_file_ready timeout_sec last t (Obs.size n :: Obs.size n :: rest) =
          WaitResult.stable (t + 1)) ∧
      (wait_for_file_ready timeout_sec last t (Obs.absent :: rest) =
        if timeout_sec < t then WaitResult.timeout t
        else wait_for_file_ready timeout_sec last (t + 1) rest) ∧
      (t ≤ timeout_sec + 1 → timeout_sec + 2 ≤ trace.length + t →
        wait_for_file_ready timeout_sec last t trace ≠ WaitResult.exhausted) := by
  intro timeout_sec last t n rest trace
  refine ⟨?_, rfl, wait_for_file_ready_returns timeout_sec trace last t⟩
  intro ht
  by_cases hn : (n : Int) = last
  · left; simp [wait_for_file_ready, hn]
  · right
    have hnt : ¬ timeout_sec < t := by omega
    simp [wait_for_file_ready, hn, hnt]

/-- Witness for C8 at concrete inputs: a stable file ends the 30-second wait
at once, and 33 polls of an absent file end it without exhaustion. -/
theorem file_ready_stabilizes_witness :
    (0 ≤ 30 ∧
      (wait_for_file_ready 30 (-1) 0 [Obs.size 5, Obs.size 5] = WaitResult.stable 0 ∨
       wait_for_file_ready 30 (-1) 0 [Obs.size 5, Obs.size 5] = WaitResult.stable 1)) ∧
    wait_for_file_ready 30 (-1) 0 (List.replicate 33 Obs.absent) ≠ WaitResult.exhausted :=
  ⟨⟨by decide, (file_ready_stabilizes_or_times_out 30 (-1) 0 5 []
      (List.replicate 33 Obs.absent)).1 (by decide)⟩,
   (file_ready_stabilizes_or_times_out 30 (-1) 0 5 []
      (List.replicate 33 Obs.absent)).2.2 (by decide) (by decide)⟩

/-- Claim C10: a failed size read on an existing file is treated as equal to
the previous sample, so `wait_for_file_ready` returns at that very poll; in
particular a read failure on the first poll (with `last_size = -1` and no
size ever observed) returns immediately at poll 0, before the timeout. -/
theorem read_error_returns_immediately :
    (∀ (timeout_sec : Nat) (last : Int) (t : Nat) (rest : List Obs),
      wait_for_file_ready timeout_sec last t (Obs.readErr :: rest) = WaitResult.stable t) ∧
    (∀ rest : List Obs,
      wait_for_file_ready 30 (-1) 0 (Obs.readErr :: rest) = WaitResult.stable 0) := by
  constructor
  · intro timeout_sec last t rest; simp [wait_for_file_ready]
  · intro rest; simp [wait_for_file_ready]

lemma await_response_eq_some (request_id : Str) :
    ∀ (frames : List (Option Frame)) (f : Frame),
      await_response request_id frames = some f →
      f.op = some 7 ∧ f.requestId = some request_id := by
  intro frames
  induction frames with
  | nil => intro f h; simp [await_response] at h
  | cons g rest ih =>
    intro f h
    cases g with
    | none => exact ih f (by simpa [await_response] using h)
    | some fr =>
      simp only [await_response] at h
      split at h
      · next hm => cases h; exact hm
      · next hm => exact ih f h

/-- Claim C5: an `obs_request` exchange completes only with a frame of
opcode 7 whose `requestId` equals the one sent (first conjunct), and any
frame that is not such a match — in particular an opcode-7 response with a
different `requestId` — is skipped by the response loop exactly as if it had
not arrived, never returned and never treated as an error (second
conjunct). -/
theorem obs_response_requires_matching_id :
    ∀ (request_id : Str) (frames : List (Option Frame)) (f : Frame),
      (obs_request request_id frames = some f →
        f.op = some 7 ∧ f.requestId = some request_id) ∧
      (∀ (g : Frame) (rest : List (Option Frame)),
        ¬(g.op = some 7 ∧ g.requestId = some request_id) →
        await_response request_id (some g :: rest) = await_response request_id rest) := by
  intro request_id frames f
  constructor
  · intro h
    cases frames with
    | nil => simp [obs_request] at h
    | cons hello rest =>
      simp only [obs_request] at h
      cases hai : await_identified rest with
      | none => rw [hai] at h; cases h
      | some afterIdentify =>
        rw [hai] at h
        exact await_response_eq_some request_id afterIdentify f h
  · intro g rest hg
    simp only [await_response]
    rw [if_neg hg]

/-- Witness for C5 at a concrete exchange: a stream containing a mismatched
opcode-7 response completes with the matching frame only, and the mismatched
frame alone is skipped. -/
theorem obs_response_matching_witness :
    obs_request ("r1".toList)
        [some ⟨some 0, none⟩, some ⟨some 2, none⟩,
         some ⟨some 7, some ("bad".toList)⟩, some ⟨some 7, some ("r1".toList)⟩] =
      some ⟨some 7, some ("r1".toList)⟩ ∧
    (Frame.mk (some 7) (some ("r1".toList))).op = some 7 ∧
    (Frame.mk (some 7) (some ("r1".toList))).requestId = some ("r1".toList) ∧
    await_response ("r1".toList) [some ⟨some 7, some ("bad".toList)⟩] =
      await_response ("r1".toList) [] :=
  ⟨by decide,
   (obs_response_requires_matching_id ("r1".toList)
      [some ⟨some 0, none⟩, some ⟨some 2, none⟩,
       some ⟨some 7, some ("bad".toList)⟩, some ⟨some 7, some ("r1".toList)⟩]
      ⟨some 7, some ("r1".toList)⟩).1 (by decide) |>.1,
   (obs_response_requires_matching_id ("r1".toList)
      [some ⟨some 0, none⟩, some ⟨some 2, none⟩,
       some ⟨some 7, some ("bad".toList)⟩, some ⟨some 7, some ("r1".toList)⟩]
      ⟨some 7, some ("r1".toList)⟩).1 (by decide) |>.2,
   (obs_response_requires_matching_id ("r1".toList) [] ⟨some 7, some ("r1".toList)⟩).2
      ⟨some 7, some ("bad".toList)⟩ [] (by decide)⟩

/-- Claim C9: the title predicate used by `wait_for_meeting_window_close` is
identical to the one used by `wait_for_meeting_window` (first conjunct), and
whenever the close wait returns at poll `r`, no title of that snapshot
satisfies that shared predicate (second conjunct). -/
theorem open_close_predicates_agree :
    (∀ (meet_id : Option Str) (title : Str),
      openTitleMatch meet_id title = closeTitleMatch meet_id title) ∧
    (∀ (meet_id : Option Str) (snaps : Nat → List Str) (t fuel r : Nat),
      wait_for_meeting_window_close meet_id snaps t fuel = some r →
      ∀ title ∈ snaps r, openTitleMatch meet_id title = false) := by
  constructor
  · intro meet_id title; rfl
  · intro meet_id snaps t fuel
    induction fuel generalizing t with
    | zero => intro r h; simp [wait_for_meeting_window_close] at h
    | succ k ih =>
      intro r h
      simp only [wait_for_meeting_window_close] at h
      split at h
      · exact ih (t + 1) r h
      · next hfound =>
        cases h
        intro title hmem
        have h1 : openTitleMatch meet_id title = closeTitleMatch meet_id title := rfl
        rw [h1]
        simp only [List.any_eq_true, not_exists, not_and] at hfound
        simpa using hfound title hmem

/-- Witness for C9 at a concrete snapshot stream: the close wait returns on a
snapshot with one non-matching title, and that title indeed fails the
open-detection predicate. -/
theorem open_close_predicates_agree_witness :
    wait_for_meeting_window_close none (fun _ => [['a']]) 0 1 = some 0 ∧
    openTitleMatch none ['a'] = false :=
  ⟨by decide,
   (open_close_predicates_agree).2 none (fun _ => [['a']]) 0 1 0 (by decide) ['a'] (by decide)⟩

lemma preOps_eq (parts : List Str) :
    preOps parts = [Op.launch] ∨ preOps parts = [Op.launch, Op.awaitWindow] := by
  unfold preOps
  split
  · right; rfl
  · left; rfl

lemma endWaitOp_or (parts : List Str) (env : Env) :
    endWaitOp parts env = Op.waitWindowClose ∨
    endWaitOp parts env = Op.waitProcessExit := by
  unfold endWaitOp
  split <;> split <;> first | exact Or.inl rfl | exact Or.inr rfl

lemma start_recording_A_shape (parts : List Str) (env : Env) :
    (env.launchOk = false ∧
      start_recording_A parts env = ([Op.launch], Outcome.launchFailed)) ∨
    (env.launchOk = true ∧ env.startOk = false ∧
      start_recording_A parts env =
        (preOps parts ++ [Op.startRecord], Outcome.startFailed)) ∨
    (env.launchOk = true ∧ env.startOk = true ∧ env.endWaitReturns = false ∧
      start_recording_A parts env =
        (preOps parts ++ [Op.startRecord, endWaitOp parts env], Outcome.stillWaiting)) ∨
    (env.launchOk = true ∧ env.startOk = true ∧ env.endWaitReturns = true ∧
      env.stopResult = none ∧
      start_recording_A parts env =
        (preOps parts ++ [Op.startRecord, endWaitOp parts env, Op.stopRecord],
         Outcome.stopFailed)) ∨
    (∃ o, env.launchOk = true ∧ env.startOk = true ∧ env.endWaitReturns = true ∧
      env.stopResult = some o ∧ truthyOpt o = false ∧
      start_recording_A parts env =
        (preOps parts ++ [Op.startRecord, endWaitOp parts env, Op.stopRecord],
         Outcome.completedNoPath)) ∨
    (∃ o, env.launchOk = true ∧ env.startOk = true ∧ env.endWaitReturns = true ∧
      env.stopResult = some o ∧ truthyOpt o = true ∧
      start_recording_A parts env =
        (preOps parts ++ [Op.startRecord, endWaitOp parts env, Op.stopRecord,
          Op.waitFileReady, Op.queueTask],
         Outcome.completedQueued)) := by
  cases hL : env.launchOk with
  | false =>
    left
    exact ⟨rfl, by simp [start_recording_A, hL]⟩
  | true =>
    cases hs : env.startOk with
    | false =>
      right; left
      exact ⟨rfl, rfl, by simp [start_recording_A, preOps, hL, hs]⟩
    | true =>
      cases hE : env.endWaitReturns with
      | false =>
        right; right; left
        exact ⟨rfl, rfl, rfl, by simp [start_recording_A, preOps, endWaitOp, hL, hs, hE]⟩
      | true =>
        cases hstop : env.stopResult with
        | none =>
          right; right; right; left
          exact ⟨rfl, rfl, rfl, rfl,
            by simp [start_recording_A, preOps, endWaitOp, hL, hs, hE, hstop]⟩
        | some o =>
          cases ho : truthyOpt o with
          | false =>
            right; right; right; right; left
            exact ⟨o, rfl, rfl, rfl, rfl, ho,
              by simp [start_recording_A, preOps, endWaitOp, hL, hs, hE, hstop, ho]⟩
          | true =>
            right; right; right; right; right
            exact ⟨o, rfl, rfl, rfl, rfl, ho,
              by simp [start_recording_A, preOps, endWaitOp, hL, hs, hE, hstop, ho]⟩

/-- Claim C1: in every `start_recording_A` run, the lifecycle chain — the
`StartRecord` call, the end-of-meeting wait (window close or process exit),
the `StopRecord` call, the queue append — is performed as a prefix of that
four-step sequence: each step occurs at most once, in this order, and no
later step occurs unless every earlier one did. -/
theorem session_chain_is_ordered :
    ∀ (parts : List Str) (env : Env), ∃ (w : Op) (k : Nat),
      (w = Op.waitWindowClose ∨ w = Op.waitProcessExit) ∧
      (start_recording_A parts env).1.filter chainRelevant =
        ([Op.startRecord, w, Op.stopRecord, Op.queueTask]).take k := by
  intro parts env
  have hpre : (preOps parts).filter chainRelevant = [] := by
    rcases preOps_eq parts with hp | hp <;> rw [hp] <;> decide
  have hw := endWaitOp_or parts env
  rcases start_recording_A_shape parts env with
    ⟨_, heq⟩ | ⟨_, _, heq⟩ | ⟨_, _, _, heq⟩ | ⟨_, _, _, _, heq⟩ |
    ⟨o, _, _, _, _, _, heq⟩ | ⟨o, _, _, _, _, _, heq⟩
  · exact ⟨Op.waitProcessExit, 0, Or.inr rfl, by rw [heq]; decide⟩
  · refine ⟨endWaitOp parts env, 1, hw, ?_⟩
    rw [heq]
    show (preOps parts ++ [Op.startRecord]).filter chainRelevant = _
    rw [List.filter_append, hpre]
    rcases hw with h | h <;> rw [h] <;> decide
  · refine ⟨endWaitOp parts env, 2, hw, ?_⟩
    rw [heq]
    show (preOps parts ++ [Op.startRecord, endWaitOp parts env]).filter chainRelevant = _
    rw [List.filter_append, hpre]
    rcases hw with h | h <;> rw [h] <;> decide
  · refine ⟨endWaitOp parts env, 3, hw, ?_⟩
    rw [heq]
    show (preOps parts ++
      [Op.startRecord, endWaitOp parts env, Op.stopRecord]).filter chainRelevant = _
    rw [List.filter_append, hpre]
    rcases hw with h | h <;> rw [h] <;> decide
  · refine ⟨endWaitOp parts env, 3, hw, ?_⟩
    rw [heq]
    show (preOps parts ++
      [Op.startRecord, endWaitOp parts env, Op.stopRecord]).filter chainRelevant = _
    rw [List.filter_append, hpre]
    rcases hw with h | h <;> rw [h] <;> decide
  · refine ⟨endWaitOp parts env, 4, hw, ?_⟩
    rw [heq]
    show (preOps parts ++ [Op.startRecord, endWaitOp parts env, Op.stopRecord,
      Op.waitFileReady, Op.queueTask]).filter chainRelevant = _
    rw [List.filter_append, hpre]
    rcases hw with h | h <;> rw [h] <;> decide

/-- Claim C2: when the launch succeeded and the `StartRecord` exchange then
raised, the run ends in the failed outcome `startFailed`, performs no
`StopRecord` call and appends no audio task. -/
theorem start_failure_aborts_before_stop :
    ∀ (parts : List Str) (env : Env), env.launchOk = true → env.startOk = false →
      (start_recording_A parts env).2 = Outcome.startFailed ∧
      Op.stopRecord ∉ (start_recording_A parts env).1 ∧
      Op.queueTask ∉ (start_recording_A parts env).1 := by
  intro parts env hL hs
  rcases start_recording_A_shape parts env with
    ⟨h1, heq⟩ | ⟨_, _, heq⟩ | ⟨_, h2, _, heq⟩ | ⟨_, h2, _, _, heq⟩ |
    ⟨o, _, h2, _, _, _, heq⟩ | ⟨o, _, h2, _, _, _, heq⟩
  · rw [hL] at h1; simp at h1
  · rw [heq]
    refine ⟨rfl, ?_, ?_⟩ <;>
      · show _ ∉ preOps parts ++ [Op.startRecord]
        rcases preOps_eq parts with hp | hp <;> rw [hp] <;> decide
  all_goals rw [hs] at h2; simp at h2

/-- Witness for C2 at a concrete session and environment. -/
theorem start_failure_aborts_witness :
    (Env.mk true (fun _ => []) true false none).launchOk = true ∧
    (Env.mk true (fun _ => []) true false none).startOk = false ∧
    ((start_recording_A [['1']] (Env.mk true (fun _ => []) true false none)).2 =
        Outcome.startFailed ∧
      Op.stopRecord ∉
        (start_recording_A [['1']] (Env.mk true (fun _ => []) true false none)).1 ∧
      Op.queueTask ∉
        (start_recording_A [['1']] (Env.mk true (fun _ => []) true false none)).1) :=
  ⟨rfl, rfl, start_failure_aborts_before_stop [['1']]
    (Env.mk true (fun _ => []) true false none) rfl rfl⟩

/-- Claim C6: when the launch and `StartRecord` succeeded, the end-of-meeting
wait returned and the `StopRecord` exchange then raised, the run ends in the
failed outcome `stopFailed` and appends no audio task. -/
theorem stop_failure_escalates_without_queue :
    ∀ (parts : List Str) (env : Env), env.launchOk = true → env.startOk = true →
      env.endWaitReturns = true → env.stopResult = none →
      (start_recording_A parts env).2 = Outcome.stopFailed ∧
      Op.queueTask ∉ (start_recording_A parts env).1 := by
  intro parts env hL hs hE hstop
  rcases start_recording_A_shape parts env with
    ⟨h1, heq⟩ | ⟨_, h2, heq⟩ | ⟨_, _, h3, heq⟩ | ⟨_, _, _, _, heq⟩ |
    ⟨o, _, _, _, h4, _, heq⟩ | ⟨o, _, _, _, h4, _, heq⟩
  · rw [hL] at h1; simp at h1
  · rw [hs] at h2; simp at h2
  · rw [hE] at h3; simp at h3
  · rw [heq]
    refine ⟨rfl, ?_⟩
    show Op.queueTask ∉ preOps parts ++ [Op.startRecord, endWaitOp parts env, Op.stopRecord]
    rcases preOps_eq parts with hp | hp <;>
      rcases endWaitOp_or parts env with h | h <;> rw [hp, h] <;> decide
  all_goals rw [hstop] at h4; simp at h4

/-- Witness for C6 at a concrete session and environment. -/
theorem stop_failure_escalates_witness :
    (Env.mk true (fun _ => []) true true none).stopResult = none ∧
    ((start_recording_A [['1']] (Env.mk true (fun _ => []) true true none)).2 =
        Outcome.stopFailed ∧
      Op.queueTask ∉
        (start_recording_A [['1']] (Env.mk true (fun _ => []) true true none)).1) :=
  ⟨rfl, stop_failure_escalates_without_queue [['1']]
    (Env.mk true (fun _ => []) true true none) rfl rfl rfl rfl⟩

/-- Counterexample to C3 as stated: at a concrete session whose launch step
fails, the run ends in `launchFailed` without ever entering join detection
or calling `StartRecord` — the code returns at zoom.py line 246 instead of
proceeding. -/
theorem launch_failure_aborts_counterexample :
    (start_recording_A [['1']] (Env.mk false (fun _ => []) true true (some none))).2 =
      Outcome.launchFailed ∧
    Op.awaitWindow ∉
      (start_recording_A [['1']] (Env.mk false (fun _ => []) true true (some none))).1 ∧
    Op.startRecord ∉
      (start_recording_A [['1']] (Env.mk false (fun _ => []) true true (some none))).1 := by
  decide

/-- Claim C3 as amended: a failure of the meeting-client launch step is
logged and aborts the session immediately — the run consists of the launch
attempt alone and ends in `launchFailed`, with no join detection, no
recording calls and no queue append. -/
theorem launch_failure_aborts_session :
    ∀ (parts : List Str) (env : Env), env.launchOk = false →
      start_recording_A parts env = ([Op.launch], Outcome.launchFailed) := by
  intro parts env hL
  simp [start_recording_A, hL]

/-- Witness for the amended C3 at a concrete session and environment. -/
theorem launch_failure_aborts_session_witness :
    (Env.mk false (fun _ => []) true true (some none)).launchOk = false ∧
    start_recording_A [['1']] (Env.mk false (fun _ => []) true true (some none)) =
      ([Op.launch], Outcome.launchFailed) :=
  ⟨rfl, launch_failure_aborts_session [['1']]
    (Env.mk false (fun _ => []) true true (some none)) rfl⟩

/-- Counterexample to C4 as stated: at a concrete session from whose join URL
no truthy meeting id can be extracted, the orchestrator never calls
`wait_for_meeting_window` — the call at zoom.py line 269 is guarded by
`if meet_id:` — even though the session proceeds to `StartRecord`. -/
theorem await_window_skipped_counterexample :
    (start_recording_A [([] : Str)] (Env.mk true (fun _ => []) true true (some none))).1 =
      [Op.launch, Op.startRecord, Op.waitProcessExit, Op.stopRecord] ∧
    Op.awaitWindow ∉
      (start_recording_A [([] : Str)] (Env.mk true (fun _ => []) true true (some none))).1 ∧
    Op.startRecord ∈
      (start_recording_A [([] : Str)] (Env.mk true (fun _ => []) true true (some none))).1 := by
  decide

/-- Claim C4 as amended: when a truthy meeting id was extracted, the
orchestrator calls `wait_for_meeting_window` with it and a 60-poll budget,
and the end-of-meeting strategy is window close if that call returned true,
process exit if it returned false; when no truthy meeting id was extracted,
`wait_for_meeting_window` is not called at all and the process-exit fallback
is used directly. -/
theorem join_detection_strategy_selection :
    ∀ (parts : List Str) (env : Env), env.launchOk = true →
      (truthyOpt (extract_meet_id parts) = true →
        Op.awaitWindow ∈ (start_recording_A parts env).1) ∧
      (truthyOpt (extract_meet_id parts) = false →
        Op.awaitWindow ∉ (start_recording_A parts env).1 ∧
        Op.waitWindowClose ∉ (start_recording_A parts env).1) ∧
      (env.startOk = true → truthyOpt (extract_meet_id parts) = true →
        wait_for_meeting_window (extract_meet_id parts) env.titleSnaps 0 60 = true →
        Op.waitWindowClose ∈ (start_recording_A parts env).1 ∧
        Op.waitProcessExit ∉ (start_recording_A parts env).1) ∧
      (env.startOk = true → truthyOpt (extract_meet_id parts) = true →
        wait_for_meeting_window (extract_meet_id parts) env.titleSnaps 0 60 = false →
        Op.waitProcessExit ∈ (start_recording_A parts env).1 ∧
        Op.waitWindowClose ∉ (start_recording_A parts env).1) ∧
      (env.startOk = true → truthyOpt (extract_meet_id parts) = false →
        Op.waitProcessExit ∈ (start_recording_A parts env).1 ∧
        Op.waitWindowClose ∉ (start_recording_A parts env).1) := by
  intro parts env hL
  have hpre1 : truthyOpt (extract_meet_id parts) = true →
      preOps parts = [Op.launch, Op.awaitWindow] := by
    intro hm; unfold preOps; rw [hm]; rfl
  have hpre0 : truthyOpt (extract_meet_id parts) = false →
      preOps parts = [Op.launch] := by
    intro hm; unfold preOps; rw [hm]; rfl
  have hwc : truthyOpt (extract_meet_id parts) = true →
      wait_for_meeting_window (extract_meet_id parts) env.titleSnaps 0 60 = true →
      endWaitOp parts env = Op.waitWindowClose := by
    intro hm hwin; unfold endWaitOp; rw [hm, hwin]; rfl
  have hpe : truthyOpt (extract_meet_id parts) = true →
      wait_for_meeting_window (extract_meet_id parts) env.titleSnaps 0 60 = false →
      endWaitOp parts env = Op.waitProcessExit := by
    intro hm hwin; unfold endWaitOp; rw [hm, hwin]; rfl
  have hpe0 : truthyOpt (extract_meet_id parts) = false →
      endWaitOp parts env = Op.waitProcessExit := by
    intro hm; unfold endWaitOp; rw [hm]; rfl
  rcases start_recording_A_shape parts env with
    ⟨h1, heq⟩ | ⟨_, h2, heq⟩ | ⟨_, _, _, heq⟩ | ⟨_, _, _, _, heq⟩ |
    ⟨o, _, _, _, _, _, heq⟩ | ⟨o, _, _, _, _, _, heq⟩
  · rw [hL] at h1; simp at h1
  · rw [heq]
    refine ⟨?_, ?_, ?_, ?_, ?_⟩
    · intro hm; rw [hpre1 hm]; decide
    · intro hm; rw [hpre0 hm]; exact ⟨by decide, by decide⟩
    · intro hs' hm hwin; rw [h2] at hs'; simp at hs'
    · intro hs' hm hwin; rw [h2] at hs'; simp at hs'
    · intro hs' hm; rw [h2] at hs'; simp at hs'
  all_goals
    rw [heq]
    refine ⟨?_, ?_, ?_, ?_, ?_⟩
    · intro hm; rw [hpre1 hm]; exact List.mem_append_left _ (by decide)
    · intro hm; rw [hpre0 hm, hpe0 hm]; exact ⟨by decide, by decide⟩
    · intro _ hm hwin; rw [hpre1 hm, hwc hm hwin]; exact ⟨by decide, by decide⟩
    · intro _ hm hwin; rw [hpre1 hm, hpe hm hwin]; exact ⟨by decide, by decide⟩
    · intro _ hm; rw [hpre0 hm, hpe0 hm]; exact ⟨by decide, by decide⟩

/-- Witness for the amended C4 at a concrete session with meeting id `123`
whose window appears on the first poll. -/
theorem join_detection_strategy_witness :
    truthyOpt (extract_meet_id [[], ['j'], ['1', '2', '3']]) = true ∧
    wait_for_meeting_window (extract_meet_id [[], ['j'], ['1', '2', '3']])
      (fun _ => [['1', '2', '3']]) 0 60 = true ∧
    (Op.awaitWindow ∈ (start_recording_A [[], ['j'], ['1', '2', '3']]
        (Env.mk true (fun _ => [['1', '2', '3']]) true true (some none))).1 ∧
      Op.waitWindowClose ∈ (start_recording_A [[], ['j'], ['1', '2', '3']]
        (Env.mk true (fun _ => [['1', '2', '3']]) true true (some none))).1 ∧
      Op.waitProcessExit ∉ (start_recording_A [[], ['j'], ['1', '2', '3']]
        (Env.mk true (fun _ => [['1', '2', '3']]) true true (some none))).1) :=
  ⟨by decide, by decide,
   (join_detection_strategy_selection [[], ['j'], ['1', '2', '3']]
      (Env.mk true (fun _ => [['1', '2', '3']]) true true (some none)) rfl).1 (by decide),
   ((join_detection_strategy_selection [[], ['j'], ['1', '2', '3']]
      (Env.mk true (fun _ => [['1', '2', '3']]) true true (some none)) rfl).2.2.1
      rfl (by decide) (by decide)).1,
   ((join_detection_strategy_selection [[], ['j'], ['1', '2', '3']]
      (Env.mk true (fun _ => [['1', '2', '3']]) true true (some none)) rfl).2.2.1
      rfl (by decide) (by decide)).2⟩

/-- Claim C7: when the supplied metadata is a truthy dict carrying both the
`faculty` and `classText` keys, the appended task's `destFolder` is the path
joined from the working directory, the fixed `Diploma/Workspace` root and
those two values; when no metadata is supplied, `destFolder` is the
directory containing the source file. -/
theorem queue_dest_folder_derivation :
    ∀ (cwd taskId : Str) (tasks : List AudioTask) (file_path : Str)
      (m : Metadata) (fac cls : Str),
      (m ≠ [] → dictGet m ("faculty".toList) = some fac →
        dictGet m ("classText".toList) = some cls →
        ∃ task : AudioTask,
          queue_audio_task cwd taskId tasks file_path (some m) =
            some (tasks ++ [task]) ∧
          task.destFolder =
            joinPath [cwd, "Diploma".toList, "Workspace".toList, fac, cls]) ∧
      (∃ task : AudioTask,
        queue_audio_task cwd taskId tasks file_path none = some (tasks ++ [task]) ∧
        task.destFolder = dirname file_path) := by
  intro cwd taskId tasks file_path m fac cls
  constructor
  · intro hm hfac hcls
    have hne : m.isEmpty = false := by
      cases m with
      | nil => exact absurd rfl hm
      | cons a l => rfl
    refine ⟨⟨taskId, file_path, (splitext (basename file_path)).1,
            (splitext (basename file_path)).2,
            joinPath [cwd, "Diploma".toList, "Workspace".toList, fac, cls],
            some m⟩, ?_, rfl⟩
    simp only [queue_audio_task, hne, hfac, hcls, Bool.not_false, if_true]
  · exact ⟨⟨taskId, file_path, (splitext (basename file_path)).1,
          (splitext (basename file_path)).2, dirname file_path, none⟩, rfl, rfl⟩

/-- Witness for C7 at concrete inputs: metadata `{faculty: Fac, classText:
ClsA}` yields `destFolder = C/Diploma/Workspace/Fac/ClsA`, absent metadata
yields the source file's directory. -/
theorem queue_dest_folder_witness :
    ([("faculty".toList, "Fac".toList), ("classText".toList, "ClsA".toList)] :
      Metadata) ≠ [] ∧
    (∃ task : AudioTask,
      queue_audio_task ("C".toList) ("t1".toList) [] ("/tmp/rec.mp4".toList)
          (some [("faculty".toList, "Fac".toList),
                 ("classText".toList, "ClsA".toList)]) =
        some ([] ++ [task]) ∧
      task.destFolder =
        joinPath ["C".toList, "Diploma".toList, "Workspace".toList,
          "Fac".toList, "ClsA".toList]) ∧
    (∃ task : AudioTask,
      queue_audio_task ("C".toList) ("t1".toList) [] ("/tmp/rec.mp4".toList) none =
        some ([] ++ [task]) ∧
      task.destFolder = dirname ("/tmp/rec.mp4".toList)) :=
  ⟨by decide,
   (queue_dest_folder_derivation ("C".toList) ("t1".toList) [] ("/tmp/rec.mp4".toList)
      [("faculty".toList, "Fac".toList), ("classText".toList, "ClsA".toList)]
      ("Fac".toList) ("ClsA".toList)).1 (by decide) (by decide) (by decide),
   (queue_dest_folder_derivation ("C".toList) ("t1".toList) [] ("/tmp/rec.mp4".toList)
      [("faculty".toList, "Fac".toList), ("classText".toList, "ClsA".toList)]
      ("Fac".toList) ("ClsA".toList)).2⟩
